import Mathlib

/-!
Verification of the Agilent E4418 power-meter driver
(`src/pymeasure/device/Agilent/E4418.py`): the `SYST:ERR?` reply parser
`error_query`, the static error catalog and its message-keyed decoder
`error_handler.check`, and the `zeroing` routine that wraps the
`CAL<ch>:ZERO:AUTO ONCE` command between two error checks around a
fixed 10-second wait.

Python strings are embedded as Lean `String`, Python `int` as `Int`
(unbounded in both), raised exceptions as `Except`/`Option` results.
-/

set_option maxRecDepth 8000

deriving instance DecidableEq for Except

/-- One entry of the power meter's static error catalog (class
`error_item` in `E4418.py`): numeric code `num`, message text `msg`,
and explanatory detail text `txt`. -/
structure error_item where
  num : Int
  msg : String
  txt : String
  deriving DecidableEq, Repr

/-- The Python exceptions that the reply parser can raise:
`int()` on a non-numeric string raises ValueError, indexing a too-short
list raises IndexError. -/
inductive PyExn where
  | valueError
  | indexError
  deriving DecidableEq, Repr

/-- Characters removed by Python's `str.strip()` with no argument. -/
def pyIsSpace (c : Char) : Bool :=
  c = ' ' || c = '\t' || c = '\n' || c = '\r' || c = '\x0b' || c = '\x0c'

/-- Python `s.strip()`: remove leading and trailing whitespace. -/
def pyStrip (s : String) : String :=
  String.mk (((s.data.dropWhile pyIsSpace).reverse.dropWhile pyIsSpace).reverse)

/-- Python `s.strip('"')` (line 57): remove leading and trailing
double-quote characters (and nothing else) from both ends. -/
def stripQuotes (s : String) : String :=
  String.mk (((s.data.dropWhile (fun c => c = '"')).reverse.dropWhile (fun c => c = '"')).reverse)

/-- Python's `split(sep)` for a one-character separator, on the list of
characters: split at every occurrence of `sep`, keeping empty fields;
the result is always nonempty. -/
def splitOnChar (sep : Char) : List Char → List (List Char)
  | [] => [[]]
  | c :: cs =>
    let r := splitOnChar sep cs
    if c = sep then [] :: r
    else
      match r with
      | [] => [[c]]
      | h :: t => (c :: h) :: t

/-- Value of a nonempty all-digit numeral; `none` otherwise. -/
def digitsToNat (l : List Char) : Option Nat :=
  if l = [] then none
  else if l.all Char.isDigit then
    some (l.foldl (fun a c => a * 10 + (c.toNat - 48)) 0)
  else none

/-- Python `int(s)` on a string (line 56): surrounding whitespace is
tolerated, then an optional sign and a nonempty run of decimal digits;
`none` models the ValueError raised on any other input. -/
def pyParseInt (s : String) : Option Int :=
  match (pyStrip s).data with
  | '-' :: rest => (digitsToNat rest).map (fun n => -(n : Int))
  | '+' :: rest => (digitsToNat rest).map (fun n => (n : Int))
  | l => (digitsToNat l).map (fun n => (n : Int))

/-- The literal command string sent by `error_query` (line 53). -/
def error_query_cmd : String := "SYST:ERR?"

/-- Line 55, `ret.strip().split(',')`: the comma-separated fields of the
reply line after stripping whitespace from the whole line. -/
def error_query_fields (line : String) : List (List Char) :=
  splitOnChar ',' (pyStrip line).data

/-- `E4418.error_query` (lines 53-58) applied to the reply line read
from the device. `int(ret[0])` raises ValueError when the first field is
not an integer; `ret[1]` raises IndexError when there is no second
field; otherwise it returns the first field as an integer paired with
the second field with surrounding double quotes stripped. Fields beyond
the second are ignored. -/
def error_query (line : String) : Except PyExn (Int × String) :=
  match pyParseInt (String.mk ((error_query_fields line).headD [])) with
  | none => Except.error PyExn.valueError
  | some n =>
    match (error_query_fields line).get? 1 with
    | none => Except.error PyExn.indexError
    | some f => Except.ok (n, stripQuotes (String.mk f))

/-- The static error catalog `error_handler.error_list` (lines 119-186),
transcribed entry for entry from the source. -/
def error_list : List error_item := [
  error_item.mk (0) "No error" "",
  error_item.mk (-101) "Invalid character" "An invalid character was found in the command string. You may have inserted a character such as #, $ or % in the command header or within a parameter. For example, LIM:LOW O#.",
  error_item.mk (-102) "Syntax error" "Invalid syntax was found in the command string. For example, LIM:CLE:AUTO, 1 or LIM:CLE:AUTO 1.",
  error_item.mk (-103) "Invalid separator" "An invalid separator was found in the command string. You may have used a comma instead of a colon, semicolon or blank space; or you may have used a blank space instead of a comma. For example, OUTP:ROSC,1.",
  error_item.mk (-105) "GET not allowed" "A Group Execute Trigger (GET) is not allowed within a command string.",
  error_item.mk (-108) "Parameter not allowed" "More parameters were received than expected for the command. You may have entered an extra parameter or added a parameter to a command that does not accept a parameter. For example, CAL 10.",
  error_item.mk (-109) "Missing parameter" "Fewer parameters were received than expected for the command. You omitted one or more parameters that are required for this command. For example, AVER:COUN.",
  error_item.mk (-112) "Program mnemonic too long" "A command header was received which contained more than the maximum 12 characters allowed. For example, SENSeAVERageCOUNt 8.",
  error_item.mk (-113) "Undefined header" "A command was received that is not valid for this power meter. You may have misspelled the command, it may not be a valid command or you may have the wrong interface selected. If you are using the short form of the command, remember that it may contain up to four letters. For example, TRIG:SOUR IMM.",
  error_item.mk (-121) "Invalid character in number" "An invalid character was found in the number specified for a parameter value. For example, SENS:AVER:COUN 128#H.",
  error_item.mk (-123) "Exponent too large" "A numeric parameter was found whose exponent was larger than 32,000. For example, SENS:COUN 1E34000.",
  error_item.mk (-124) "Too many digits" "A numeric parameter was found whose mantissa contained more than 255 digits, excluding leading zeros.",
  error_item.mk (-128) "Numeric data not allowed" "A numeric value was received within a command which does not accept a numeric value. For example, MEM:CLE 24.",
  error_item.mk (-131) "Invalid suffix" "A suffix was incorrectly specified for a numeric parameter. You may have misspelled the suffix. For example, SENS:FREQ 200KZ.",
  error_item.mk (-134) "Suffix too long" "A suffix used contained more than 12 characters. For example, SENS:FREQ 2MHZZZZZZZZZZZ.",
  error_item.mk (-138) "Suffix not allowed" "A suffix was received following a numeric parameter which does not accept a suffix. For example, INIT:CONT 0Hz.",
  error_item.mk (-148) "Character data not allowed" "A discrete parameter was received but a character string or a numeric parameter was expected. Check the list of parameters to verify that you have used a valid parameter type. For example, MEM:CLE CUSTOM_1.",
  error_item.mk (-151) "Invalid string data" "An invalid string was received. Check to see if you have enclosed the character string in single or double quotes. For example, MEM:CLE \"CUSTOM_1.",
  error_item.mk (-158) "String data not allowed" "A character string was received but is not allowed for the command. Check the list of parameters to verify that you have used a valid parameter type. For example, LIM:STAT `ON'.",
  error_item.mk (-161) "Invalid block data" "A block data element was expected but was invalid for some reason. For example, *DDT #15FET. The 5 in the string indicates that 5 characters should follow, whereas in this example there are only 3.",
  error_item.mk (-168) "Block data not allowed" "A legal block data element was encountered but not allowed by the power meter at this point. For example SYST:LANG #15FETC?.",
  error_item.mk (-178) "Expression data not allowed" "A legal expression data was encountered but not allowed by the power meter at this point. For example SYST:LANG (5+2).",
  error_item.mk (-211) "Trigger ignored" "Indicates that <GET> or *TRG or TRIG:IMM was received and recognized by the device but was ignored because the power meter was not in the wait for trigger state.",
  error_item.mk (-213) "Init ignored" "Indicates that a request for a measurement initiation was ignored as the power meter was already initiated. For example, INIT:CONT ON INIT.",
  error_item.mk (-214) "Trigger deadlock" "TRIG:SOUR was set to HOLD or BUS and a READ? or MEASure? was attempted, expecting TRIG:SOUR to be set to IMMediate.",
  error_item.mk (-220) "Parameter error;Frequency list must be in ascending order." "Indicates that the frequencies entered using the MEMory:TABLe:FREQuency command are not in ascending order.",
  error_item.mk (-221) "Settings conflict" "This command occurs under a variety of conflicting conditions. The following list gives a few examples of where this error may occur: * If the READ? parameters do not match the current settings. * If you are in fast mode and attempting to switch on for example, averaging, duty cycle or limits. * Trying to clear a sensor calibration table when none is selected.",
  error_item.mk (-221) "Settings conflict;DTR/DSR not available on RS422" "DTR/DSR is only available on the RS232 interface.",
  error_item.mk (-222) "Data out of range" "A numeric parameter value is outside the valid range for the command. For example, SENS:FREQ 2KHZ.",
  error_item.mk (-224) "Illegal parameter value" "A discrete parameter was received which was not a valid choice for the command. You may have used an invalid parameter choice. For example, TRIG:SOUR EXT.",
  error_item.mk (-226) "Lists not same length" "This occurs when SENSe:CORRection:CSET[1]|CSET2:STATe is set to ON and the frequency and calibration/offset lists do not correspond in length.",
  error_item.mk (-230) "Data corrupt or stale" "This occurs when a FETC? is attempted and either a reset has been received or the power meter state has changed such that the current measurement is invalidated (for example, a change of frequency setting or triggering conditions).",
  error_item.mk (-230) "Data corrupt or stale;Please zero and calibrate Channel A" "When CAL[1|2]:RCAL is set to ON and the sensor currently connected to channel A has not been zeroed and calibrated, then any command which would normally return a measurement result (for example FETC?, READ? or MEAS?) will generate this error message.",
  error_item.mk (-230) "Data corrupt or stale;Please zero Channel A" "When CAL[1|2]:RCAL is set to ON and the sensor currently connected to channel A has not been zeroed, then any command which would normally return a measurement result (for example FETC?, READ? or MEAS?) will generate this error message.",
  error_item.mk (-230) "Data corrupt or stale;Please calibrate Channel A" "When CAL[1|2]:RCAL is set to ON and the sensor currently connected to channel A has not been calibrated, then any command which would normally return a measurement result (for example FETC?, READ? or MEAS?) will generate this error message",
  error_item.mk (-231) "Data questionable;CAL ERROR" "Power meter calibration failed. The most likely cause is attempting to calibrate without applying a 1 mW power to the power sensor.",
  error_item.mk (-231) "Data questionable;Input Overload" "The power input to Channel A exceeds the power sensor's maximum range.",
  error_item.mk (-231) "Data questionable;Lower window log error" "This indicates that a difference measurement in the lower window has given a negative result when the units of measurement were logarithmic.",
  error_item.mk (-231) "Data questionable;Upper window log error" "This indicates that a difference measurement in the upper window has given a negative result when the units of measurement were logarithmic.",
  error_item.mk (-231) "Data questionable;ZERO ERROR" "Power meter zeroing failed. The most likely cause is attempting to zero when some power signal is being applied to the power sensor.",
  error_item.mk (-241) "Hardware missing" "The power meter is unable to execute the command because either no power sensor is connected or it expects an Agilent E-Series or N8480 Series power sensor, and one is not connected.",
  error_item.mk (-310) "System error;Dty Cyc may impair accuracy with ECP sensor" "This indicates that the sensor connected is for use with CW signals only.",
  error_item.mk (-310) "System error;Sensor EEPROM Read Failed - critical data not found or unreadable" "This indicates a failure with your Agilent E-Series or N8480 Series power sensor. Refer to your power sensor manual for details on returning it for repair.",
  error_item.mk (-310) "System error;Sensor EEPROM Read Completed OK but optional data block(s) not found or unreadable" "This indicates a failure with your Agilent E-Series or N8480 Series power sensor. Refer to your power sensor manual for details on returning it for repair.",
  error_item.mk (-310) "System error;Sensor EEPROM Read Failed - unknown EEPROM table format" "This indicates a failure with your Agilent E-Series or N8480 Series power sensor. Refer to your power sensor manual for details on returning it for repair.",
  error_item.mk (-310) "System error;Sensor EEPROM < > data not found or unreadable" "Where < > refers to the sensor data block covered, for example, Linearity, Temp - Comp (temperature compensation). This indicates a failure with your Agilent E-Series or N8480 Series power sensor. Refer to your power sensor manual for details on returning it for repair.",
  error_item.mk (-310) "System error;Option 001 Battery charger fault" "The power meter is connected to an AC power source, the battery is not fully charged and it is not charging.",
  error_item.mk (-310) "System error;Sensors connected to both front and rear inputs. You cannot connect two power sensors to the one channel input. In this instance, the power" "meter detects power sensors connected to both its front and rear channel inputs.",
  error_item.mk (-320) "Out of memory" "The power meter required more memory than was available to run an internal operation.",
  error_item.mk (-330) "Self-test Failed;" "The -330, \"Self-test Failed\" errors indicate that you have a problem with your power meter. Refer to \"Contacting Agilent Technologies\" on page 103 for details of what to do with your faulty power meter.",
  error_item.mk (-330) "Self-test Failed;Measurement Channel Fault" "Refer to \"Measurement Assembly\" on page 98 if you require a description of the Measurement Assembly test.",
  error_item.mk (-330) "Self-test Failed;Option 001 Battery requires replacement" "The Option 001 battery is not charging to a satisfactory level and should be replaced.",
  error_item.mk (-330) "Self-test Failed;RAM Battery Fault" "Refer to \"RAM Battery\" on page 98 if you require a description of the battery test. ",
  error_item.mk (-330) "Self-test Failed;Calibrator Fault" "Refer to \"Calibrator\" on page 99 if you require a description of the calibrator test. ",
  error_item.mk (-330) "Self-test Failed;ROM Check Failed" "Refer to \"ROM Checksum\" on page 98 if you require a description of the ROM Checksum test. ",
  error_item.mk (-330) "Self-test Failed;RAM Check Failed" "Refer to \"RAM\" on page 98 if you require a description of the RAM test. ",
  error_item.mk (-330) "Self-test Failed;Display Assy. Fault" "Refer to \"Display\" on page 99 if you require a description of the Display test. ",
  error_item.mk (-330) "Self-test Failed;Confidence Check Fault" "Refer to \"Confidence Check\" on page 96 if you require a description of this test. ",
  error_item.mk (-330) "Self-test Failed;Serial Interface Fault" "Refer to \"Serial Interface\" on page 99 if you require a description of this test. ",
  error_item.mk (-350) "Queue overflow" "The error queue is full and another error has occurred which could not be recorded.",
  error_item.mk (-361) "Parity error in program" "The serial port receiver has detected a parity error and consequently, data integrity cannot be guaranteed.",
  error_item.mk (-362) "Framing error in program" "The serial port receiver has detected a framing error and consequently, data integrity cannot be guaranteed.",
  error_item.mk (-363) "Input buffer overrun" "The serial port receiver has been overrun and consequently, data has been lost.",
  error_item.mk (-410) "Query INTERRUPTED" "A command was received which sends data to the output buffer, but the output buffer contained data from a previous command (the previous data is not overwritten). The output buffer is cleared when power has been off or after *RST (reset) command has been executed.",
  error_item.mk (-420) "Query UNTERMINATED" "The power meter was addressed to talk (that is, to send data over the interface) but a command has not been received which sends data to the output buffer. For example, you may have executed a CONFigure command (which does not generate data) and then attempted to read data from the remote interface.",
  error_item.mk (-430) "Query DEADLOCKED" "A command was received which generates too much data to fit in the output buffer and the input buffer is also full. Command execution continues but data is lost. -440 Query UNTERMINATED after indefinite response The *IDN? command must be the last query command within a command string."
]

/-- The spec's DiagnosticReport: the displayed code, the summary line,
and the detail text of one decoded error. On the catalog-matched path of
`error_handler.check` these are `e.num`, `e.msg`, `e.txt` of the matched
entry; on the fallback path they are the reported code, the raw message,
and the empty string. -/
structure DiagnosticReport where
  code : Int
  summary : String
  detail : String
  deriving DecidableEq, Repr

/-- The message-keyed scan of the for-loop in `error_handler.check`
(lines 191-192): the first catalog entry whose message text equals
`msg`, using the loop's exact comparison `msg == e.msg`. -/
def lookup (msg : String) : Option error_item :=
  error_list.find? (fun e => msg == e.msg)

/-- `error_handler.check` (lines 188-207), structured: `none` when no
error is raised (`num == 0`); otherwise `some` of the raised report,
flagged `true` for the catalog-matched raise (lines 192-199, all three
fields from the matched entry) and `false` for the unknown-error
fallback raise (lines 201-206, summary is the raw message, detail
empty). -/
def check (num : Int) (msg : String) : Option (Bool × DiagnosticReport) :=
  if num = 0 then none
  else
    match lookup msg with
    | some e => some (true, DiagnosticReport.mk e.num e.msg e.txt)
    | none => some (false, DiagnosticReport.mk num msg "")

/-- A line of asterisks, Python `'*'*n`. -/
def stars (n : Nat) : String :=
  String.mk (List.replicate n '*')

/-- The exact StandardError text built on the matched path
(lines 193-198): `emsg = '%s (%d)' % (e.msg, e.num)` framed by asterisk
lines, followed by `e.txt`. -/
def renderMatched (r : DiagnosticReport) : String :=
  let emsg := r.summary ++ " (" ++ toString r.code ++ ")"
  "Power meter returned Error message.\n" ++
    stars emsg.length ++ "\n" ++ emsg ++ "\n" ++ stars emsg.length ++ "\n" ++
    r.detail ++ "\n"

/-- The exact StandardError text built on the fallback path
(lines 201-205): `emsg = '%s (%d)\n' % (msg, num)` — the trailing
newline is part of `emsg` and counted by `len(emsg)` for the asterisk
lines. -/
def renderFallback (r : DiagnosticReport) : String :=
  let emsg := r.summary ++ " (" ++ toString r.code ++ ")\n"
  "Power meter returned Error message.\n" ++
    stars emsg.length ++ "\n" ++ emsg ++ stars emsg.length ++ "\n"

/-- The raised StandardError message of `error_handler.check` as a
string, `none` when nothing is raised. -/
def checkMessage (num : Int) (msg : String) : Option String :=
  (check num msg).map (fun p => if p.1 then renderMatched p.2 else renderFallback p.2)

/-- A failure escaping `E4418._error_check`: either a Python exception
raised while parsing the reply line, or the device error raised by
`error_handler.check`. -/
inductive Failure where
  | pyExn (e : PyExn)
  | deviceError (r : DiagnosticReport)
  deriving DecidableEq, Repr

/-- `E4418._error_check` (lines 17-20) applied to the reply line the
device returns for its `SYST:ERR?` query: parse with `error_query`,
then decode with `error_handler.check`. -/
def error_check (line : String) : Option Failure :=
  match error_query line with
  | Except.error e => some (Failure.pyExn e)
  | Except.ok (num, msg) => (check num msg).map (fun p => Failure.deviceError p.2)

/-- Observable steps of the `zeroing` routine: sending a command line,
running an error check, and sleeping for a number of seconds. -/
inductive Event where
  | send (cmd : String)
  | errCheck
  | sleep (secs : Nat)
  deriving DecidableEq, Repr

/-- The command string of line 90, `'CAL%d:ZERO:AUTO ONCE' % (ch)`. -/
def zeroCmd (ch : Int) : String :=
  "CAL" ++ toString ch ++ ":ZERO:AUTO ONCE"

/-- `E4418.zeroing` (lines 60-94) as a trace: send `CAL<ch>:ZERO:AUTO
ONCE`, run `_error_check` on the device's first error reply `r1` — a
raised failure propagates and aborts the routine — then `time.sleep(10)`
and a second `_error_check` on reply `r2`. Returns the event trace and
the failure that escaped, if any. -/
def zeroing (ch : Int) (r1 r2 : String) : List Event × Option Failure :=
  match error_check r1 with
  | some f => ([Event.send (zeroCmd ch), Event.errCheck], some f)
  | none =>
    ([Event.send (zeroCmd ch), Event.errCheck, Event.sleep 10, Event.errCheck],
      error_check r2)

/-! ## General lemmas -/

/-- Splitting a character list that does not contain the separator
yields the single field holding the whole list. -/
theorem splitOnChar_of_not_mem {sep : Char} {l : List Char} (h : sep ∉ l) :
    splitOnChar sep l = [l] := by
  induction l with
  | nil => rfl
  | cons c cs ih =>
    have h1 : ¬ c = sep := by
      rintro rfl
      exact h (List.mem_cons_self _ _)
    have h2 : sep ∉ cs := fun m => h (List.mem_cons_of_mem _ m)
    simp [splitOnChar, h1, ih h2]

/-! ## Claims -/

/-- Claim C3: for every entry of the static error catalog, looking the
entry's message text up returns exactly that entry — message text is a
discriminating key even though several entries share a numeric code. -/
theorem c3_lookup_roundtrip : ∀ e ∈ error_list, lookup e.msg = some e := by decide

/-- Witness for C3 at the `-320, Out of memory` entry. -/
theorem c3_witness :
    lookup "Out of memory" = some (error_item.mk (-320) "Out of memory" "The power meter required more memory than was available to run an internal operation.") :=
  c3_lookup_roundtrip (error_item.mk (-320) "Out of memory" "The power meter required more memory than was available to run an internal operation.") (by decide)

/-- Claim C4: decoding code 0 never raises, for any message; decoding
any non-zero code raises exactly one report, catalog-matched or
synthesized. -/
theorem c4_zero_silent_nonzero_reports (num : Int) (msg : String) :
    (num = 0 → check num msg = none) ∧
    (num ≠ 0 → (check num msg).isSome = true) := by
  constructor
  · intro h
    simp [check, h]
  · intro h
    cases hl : lookup msg <;> simp [check, h, hl]

/-- Witness for C4 at code 0 and code -5 with an arbitrary message. -/
theorem c4_witness :
    check 0 "some message" = none ∧ (check (-5) "some message").isSome = true :=
  ⟨(c4_zero_silent_nonzero_reports 0 "some message").1 rfl,
   (c4_zero_silent_nonzero_reports (-5) "some message").2 (by decide)⟩

/-- Claim C7: for a non-zero code and a message absent from the
catalog, decoding takes the fallback path: the report's summary is the
raw message and its detail is empty; no uncaught error occurs (the
decoder is total). -/
theorem c7_unknown_message_fallback (num : Int) (msg : String)
    (h : num ≠ 0) (hm : lookup msg = none) :
    check num msg = some (false, DiagnosticReport.mk num msg "") := by
  simp [check, h, hm]

/-- Witness for C7 at code 7 and the unknown message "mystery". -/
theorem c7_witness :
    check 7 "mystery" = some (false, DiagnosticReport.mk 7 "mystery" "") :=
  c7_unknown_message_fallback 7 "mystery" (by decide) (by decide)

/-- Claim C10: catalog matching is exact full-string equality — any
message that differs from every catalog entry's message (in case,
whitespace, or any character) takes the unknown-error fallback path,
preserving the raw message. -/
theorem c10_exact_match_only (num : Int) (msg : String) (h : num ≠ 0)
    (hm : ∀ e ∈ error_list, msg ≠ e.msg) :
    check num msg = some (false, DiagnosticReport.mk num msg "") := by
  have hl : lookup msg = none := by
    apply List.find?_eq_none.mpr
    intro e he
    simpa using hm e he
  simp [check, h, hl]

/-- Witness for C10 at "illegal parameter value", which differs from
the catalog's "Illegal parameter value" only in case. -/
theorem c10_witness :
    check (-224) "illegal parameter value" =
      some (false, DiagnosticReport.mk (-224) "illegal parameter value" "") :=
  c10_exact_match_only (-224) "illegal parameter value" (by decide) (by decide)

/-- Counterexample to claim C1: reported code -999 with the catalog
message "Illegal parameter value" matches the catalog, yet the report
displays the entry's stored code -224, not the reported -999. -/
theorem c1_counterexample :
    (lookup "Illegal parameter value").isSome = true ∧
    (check (-999) "Illegal parameter value").map (fun p => p.2.code) = some (-224) ∧
    ((-224 : Int) ≠ -999) := by decide

/-- Claim C1 (amended): for every non-zero reported code whose message
matches a catalog entry, the decode step produces a report that
displays the catalog entry's stored code (together with the entry's
message and detail), not the reported code. -/
theorem c1_matched_uses_stored_code (num : Int) (msg : String)
    (e : error_item) (h : num ≠ 0) (hm : lookup msg = some e) :
    check num msg = some (true, DiagnosticReport.mk e.num e.msg e.txt) := by
  simp [check, h, hm]

/-- Witness for C1 (amended): reported code -5 with message
"Out of memory" is displayed with the stored code -320. -/
theorem c1_witness :
    check (-5) "Out of memory" =
      some (true, DiagnosticReport.mk (-320) "Out of memory" "The power meter required more memory than was available to run an internal operation.") :=
  c1_matched_uses_stored_code (-5) "Out of memory"
    (error_item.mk (-320) "Out of memory" "The power meter required more memory than was available to run an internal operation.")
    (by decide) (by decide)

/-- Counterexample to claim C2: the line "1,2,3" does not split into
exactly two comma-separated fields, yet `error_query` succeeds with
(1, "2") instead of failing with a ParseError. -/
theorem c2_counterexample : error_query "1,2,3" = Except.ok (1, "2") := by decide

/-- Claim C2 (amended): a reply line containing no comma makes
`error_query` raise an uncaught Python exception — IndexError when the
line's sole field parses as an integer, ValueError otherwise — rather
than a structured ParseError; lines with more than two fields succeed. -/
theorem c2_no_comma_uncaught_exn (line : String)
    (h : ',' ∉ (pyStrip line).data) :
    error_query line = Except.error PyExn.indexError ∨
    error_query line = Except.error PyExn.valueError := by
  have hf : error_query_fields line = [(pyStrip line).data] :=
    splitOnChar_of_not_mem h
  cases hp : pyParseInt (String.mk (pyStrip line).data) with
  | none =>
    right
    simp [error_query, hf, hp]
  | some n =>
    left
    simp [error_query, hf, hp]

/-- Witness for C2 (amended) at the comma-free line "abc". -/
theorem c2_witness :
    error_query "abc" = Except.error PyExn.indexError ∨
    error_query "abc" = Except.error PyExn.valueError :=
  c2_no_comma_uncaught_exn "abc" (by decide)

/-- Counterexample to claim C6: on the line `0, "No error."` (a space
after the comma) the message is returned as ` "No error.` — whitespace
is not stripped from the field, and the leading quote survives because
`strip('"')` only removes quote characters at the very ends. -/
theorem c6_counterexample :
    error_query "0, \"No error.\"" = Except.ok (0, " \"No error.") ∧
    (" \"No error." : String) ≠ "No error." := by decide

/-- Claim C6 (amended): `error_query` sends the literal command
SYST:ERR?, strips whitespace from the whole reply line (not from the
individual fields), splits on commas, parses the first field as an
integer, and strips surrounding double-quote characters (not
whitespace) from the second field; on the reply line `0,"No error."`
it returns (0, "No error."). -/
theorem c6_query_example :
    error_query_cmd = "SYST:ERR?" ∧
    error_query "0,\"No error.\"" = Except.ok (0, "No error.") := by decide

/-- Claim C8: on the device reply line `-224,"Illegal parameter value"`
the combined check (`error_query` then decode) fails with a device
error whose summary is "Illegal parameter value". -/
theorem c8_illegal_parameter_value :
    ∃ d : String, error_check "-224,\"Illegal parameter value\"" =
      some (Failure.deviceError (DiagnosticReport.mk (-224) "Illegal parameter value" d)) :=
  ⟨"A discrete parameter was received which was not a valid choice for the command. You may have used an invalid parameter choice. For example, TRIG:SOUR EXT.", by decide⟩

/-- Claim C9: whenever the stripped reply line splits into at least two
comma-separated fields and the first parses as an integer, `error_query`
succeeds with that integer and the quote-stripped second field,
silently discarding every later field — a quoted message containing a
comma is truncated at that comma. -/
theorem c9_first_two_fields (line : String) (f0 f1 : List Char)
    (rest : List (List Char)) (n : Int)
    (hf : error_query_fields line = f0 :: f1 :: rest)
    (hn : pyParseInt (String.mk f0) = some n) :
    error_query line = Except.ok (n, stripQuotes (String.mk f1)) := by
  simp [error_query, hf, hn]

/-- Witness for C9: the line `-1,"a,b"` succeeds as (-1, "a"), the
quoted message truncated at its comma. -/
theorem c9_witness : error_query "-1,\"a,b\"" = Except.ok (-1, "a") := by
  have h := c9_first_two_fields "-1,\"a,b\"" ['-', '1'] ['"', 'a']
    [['b', '"']] (-1) (by decide) (by decide)
  exact h.trans (by decide)

/-- Claim C5: `zeroing` first sends exactly `CAL<ch>:ZERO:AUTO ONCE`
(decimal channel, no leading zeros, no local channel validation — the
trace is defined for every channel); if the post-send error check
surfaces a failure, the routine aborts with that failure and the
10-second sleep never appears in the trace; otherwise the trace is
send, check, sleep 10, check, and the outcome is the second check's. -/
theorem c5_zeroing_protocol (ch : Int) (r1 r2 : String) :
    (zeroing ch r1 r2).1.head? =
      some (Event.send ("CAL" ++ toString ch ++ ":ZERO:AUTO ONCE")) ∧
    (error_check r1 ≠ none →
      zeroing ch r1 r2 = ([Event.send (zeroCmd ch), Event.errCheck], error_check r1) ∧
      ∀ n, Event.sleep n ∉ (zeroing ch r1 r2).1) ∧
    (error_check r1 = none →
      (zeroing ch r1 r2).1 =
        [Event.send (zeroCmd ch), Event.errCheck, Event.sleep 10, Event.errCheck] ∧
      (zeroing ch r1 r2).2 = error_check r2) := by
  cases h : error_check r1 with
  | none =>
    refine ⟨?_, ?_, ?_⟩ <;> simp [zeroing, h, zeroCmd]
  | some f =>
    refine ⟨?_, ?_, ?_⟩ <;> simp [zeroing, h, zeroCmd]

/-- Witness for C5: a first reply reporting -224 aborts the routine
after send and check, and the 10-second sleep is not in the trace. -/
theorem c5_witness :
    zeroing 1 "-224,\"Illegal parameter value\"" "0,\"No error\"" =
      ([Event.send (zeroCmd 1), Event.errCheck],
        error_check "-224,\"Illegal parameter value\"") ∧
    Event.sleep 10 ∉ (zeroing 1 "-224,\"Illegal parameter value\"" "0,\"No error\"").1 :=
  ⟨((c5_zeroing_protocol 1 "-224,\"Illegal parameter value\"" "0,\"No error\"").2.1
      (by decide)).1,
   ((c5_zeroing_protocol 1 "-224,\"Illegal parameter value\"" "0,\"No error\"").2.1
      (by decide)).2 10⟩
